import Mathlib

/-!
# Verification of the custom-estimator contract
  (sklearn-estimator-fosdem-2020/custom_estimators.ipynb)

A shallow embedding of the notebook's `MyClassifier` estimator and of the
validation / fitted-state / tag machinery it relies on.  Feature matrices are
`List (List ℚ)` (rows are samples), label vectors are `List ℚ`.  Failure is
modelled with `Except EstErr`.

`MyClassifier.fit`, `MyClassifier.predict`, the default tag table and the
logging calls are translated directly from the notebook source.  The sklearn
helpers the notebook imports (`check_array`, `check_X_y`, `check_is_fitted`,
`SVC`, `GridSearchCV`) are not part of the repository's source; they are
modelled from the specification's description of them, and each such
definition is marked `Modelled from the spec:`.
-/

/-- Error taxonomy of the specification (section 7). -/
inductive EstErr where
  | NotFittedError
  | ShapeMismatchError
  | EmptyInputError
  | DimensionalityError
  | FeatureShapeMismatchError
  | EmptyGridError
  deriving DecidableEq

/-- A feature container is rectangular when every row has the length of the
first row (a ragged container is rejected by validation). -/
def isRectangular : List (List ℚ) → Bool
  | [] => true
  | r :: rs => rs.all (fun s => s.length == r.length)

/-- Number of columns (feature dimensionality) of a feature container. -/
def ncols : List (List ℚ) → ℕ
  | [] => 0
  | r :: _ => r.length

/-- Modelled from the spec: `check_array` (sklearn.utils.validation, only its
docstring appears in the notebook).  Input validation on a feature container:
the input must be a non-empty two-dimensional (rectangular) array with at
least one sample and one feature; values are rationals, hence numeric and
finite.  Returns the canonical array, never mutating the input. -/
def check_array (X : List (List ℚ)) : Except EstErr (List (List ℚ)) :=
  if ¬ isRectangular X then .error .DimensionalityError
  else if X.length = 0 then .error .EmptyInputError
  else if ncols X = 0 then .error .EmptyInputError
  else .ok X

/-- Modelled from the spec: `check_X_y` (sklearn.utils.validation, only its
docstring appears in the notebook).  Checks X and y for consistent length —
per the spec a feature/label sample-count mismatch always raises
`ShapeMismatchError` regardless of shapes otherwise being valid — then
applies the standard array checks to X. -/
def check_X_y (X : List (List ℚ)) (y : List ℚ) :
    Except EstErr (List (List ℚ) × List ℚ) :=
  if X.length ≠ y.length then .error .ShapeMismatchError
  else
    match check_array X with
    | .error e => .error e
    | .ok X' => .ok (X', y)

/-- The canonical record of the distinct label classes seen in training
labels: sorted distinct values (as `numpy.unique` produces). -/
def uniqueSorted (l : List ℚ) : List ℚ :=
  l.dedup.insertionSort (· ≤ ·)

/-- Modelled from the spec: the wrapped support-vector classifier `SVC` is an
opaque deterministic learning capability; its fitted state records the
constructor parameter `C`, the training data, the per-call fit parameters
forwarded to it, the feature dimensionality seen at fit time and the
canonical `classes_` record. -/
structure SVCModel where
  C : ℚ
  nFeatures : ℕ
  trainX : List (List ℚ)
  trainY : List ℚ
  fitParams : List ℚ
  classes_ : List ℚ
  deriving DecidableEq

namespace SVC

/-- Modelled from the spec: fitting the wrapped classifier stores the
training data and the verbatim fit parameters, and computes `classes_`. -/
def fit (C : ℚ) (X : List (List ℚ)) (y : List ℚ) (fitParams : List ℚ) :
    SVCModel :=
  { C := C
    nFeatures := ncols X
    trainX := X
    trainY := y
    fitParams := fitParams
    classes_ := uniqueSorted y }

/-- Squared euclidean distance between two feature rows. -/
def sqDist (a b : List ℚ) : ℚ :=
  (List.zipWith (fun u v => (u - v) * (u - v)) a b).sum

/-- Modelled from the spec: the wrapped classifier's deterministic per-row
prediction — the label of the nearest stored training sample. -/
def predictRow (m : SVCModel) (r : List ℚ) : ℚ :=
  match m.trainX.zip m.trainY with
  | [] => 0
  | p :: ps =>
      (ps.foldl (fun acc q => if sqDist q.1 r < sqDist acc.1 r then q else acc)
        p).2

end SVC

/-- Modelled from the spec: predicting with the wrapped classifier validates
the features against the same feature dimensionality seen at fit time,
failing with `FeatureShapeMismatchError` on mismatch, and otherwise returns
one label per input row. -/
def SVCModel.predict (m : SVCModel) (X : List (List ℚ)) :
    Except EstErr (List ℚ) :=
  if ∀ r ∈ X, r.length = m.nFeatures then
    .ok (X.map (SVC.predictRow m))
  else .error .FeatureShapeMismatchError

/-- The fitted attributes of `MyClassifier`: `estimator_` and `classes_`,
both set in `fit` and absent before it. -/
structure MyFitted where
  estimator_ : SVCModel
  classes_ : List ℚ
  deriving DecidableEq

/-- `MyClassifier` from the notebook: the constructor parameter `C` and the
optional fitted attributes (absent on a freshly constructed instance). -/
structure MyClassifier where
  C : ℚ
  fitted : Option MyFitted
  deriving DecidableEq

/-- `MyClassifier.__init__(self, C=1)`: sets only the parameter `C`; no
fitted attribute exists after construction. -/
def MyClassifier.init (C : ℚ := 1) : MyClassifier :=
  { C := C, fitted := none }

/-- Modelled from the spec: `check_is_fitted` / `require_fitted` — fails with
`NotFittedError` if the expected fitted attributes are absent; otherwise
yields them. -/
def check_is_fitted (m : MyClassifier) : Except EstErr MyFitted :=
  match m.fitted with
  | none => .error .NotFittedError
  | some f => .ok f

/-- `MyClassifier.fit(self, X, y, **fit_params)` translated from the
notebook: validate with `check_X_y`, fit the wrapped `SVC(C=self.C)` on the
validated data forwarding `fit_params`, store `estimator_` and `classes_`,
and return self. -/
def MyClassifier.fit (m : MyClassifier) (X : List (List ℚ)) (y : List ℚ)
    (fitParams : List ℚ) : Except EstErr MyClassifier :=
  match check_X_y X y with
  | .error e => .error e
  | .ok (X', y') =>
      let est := SVC.fit m.C X' y' fitParams
      .ok { C := m.C, fitted := some ⟨est, est.classes_⟩ }

/-- `MyClassifier.predict(self, X)` translated from the notebook:
`check_is_fitted`, then `check_array`, then delegate to the wrapped
classifier's predict. -/
def MyClassifier.predict (m : MyClassifier) (X : List (List ℚ)) :
    Except EstErr (List ℚ) :=
  match check_is_fitted m with
  | .error e => .error e
  | .ok f =>
      match check_array X with
      | .error e => .error e
      | .ok X' => f.estimator_.predict X'

/-- The caller-configurable logging level (`logger.setLevel`); `DEBUG` is 10,
`INFO` is 20, as in Python's logging module. -/
def DEBUG : ℕ := 10

/-- A `logger.debug` record is emitted exactly when the configured level is
at most `DEBUG`. -/
def debugMsgs (lvl : ℕ) (msgs : List String) : List String :=
  if lvl ≤ DEBUG then msgs else []

/-- `MyClassifier.fit` with its `logger.debug` calls made explicit: returns
the result together with the trace records emitted at the configured level.
The debug calls appear after validation, exactly as in the notebook. -/
def MyClassifier.fitLogged (lvl : ℕ) (m : MyClassifier)
    (X : List (List ℚ)) (y : List ℚ) (fitParams : List ℚ) :
    Except EstErr MyClassifier × List String :=
  match check_X_y X y with
  | .error e => (.error e, [])
  | .ok (X', y') =>
      let logs := debugMsgs lvl
        ["C: " ++ toString m.C,
         "fitting on " ++ toString X'.length ++ " samples",
         "fit end/"]
      let est := SVC.fit m.C X' y' fitParams
      (.ok { C := m.C, fitted := some ⟨est, est.classes_⟩ }, logs)

/-- `MyClassifier.predict` with its `logger.debug` call made explicit. -/
def MyClassifier.predictLogged (lvl : ℕ) (m : MyClassifier)
    (X : List (List ℚ)) : Except EstErr (List ℚ) × List String :=
  match check_is_fitted m with
  | .error e => (.error e, [])
  | .ok f =>
      match check_array X with
      | .error e => (.error e, [])
      | .ok X' =>
          (f.estimator_.predict X',
           debugMsgs lvl ["predicting on " ++ toString X'.length ++ " samples"])

/-- The estimator tag table from the notebook's `_DEFAULT_TAGS` cell. -/
structure TagSet where
  non_deterministic : Bool
  requires_positive_X : Bool
  requires_positive_y : Bool
  X_types : List String
  poor_score : Bool
  no_validation : Bool
  multioutput : Bool
  allow_nan : Bool
  stateless : Bool
  multilabel : Bool
  skip_test : Bool
  multioutput_only : Bool
  binary_only : Bool
  requires_fit : Bool
  deriving DecidableEq

/-- `_DEFAULT_TAGS` as printed in the notebook. -/
def _DEFAULT_TAGS : TagSet :=
  { non_deterministic := false
    requires_positive_X := false
    requires_positive_y := false
    X_types := ["2darray"]
    poor_score := false
    no_validation := false
    multioutput := false
    allow_nan := false
    stateless := false
    multilabel := false
    skip_test := false
    multioutput_only := false
    binary_only := false
    requires_fit := true }

/-- `MyClassifier` declares no `_more_tags` override, so its tags are the
default set. -/
def MyClassifier.tags : TagSet := _DEFAULT_TAGS

/-- The candidate values for `selectkbest__k` in the notebook's `param_grid`. -/
def kGrid : List ℕ := [1, 2, 5, 10, 20]

/-- The candidate values for `myclassifier__C` in the notebook's `param_grid`. -/
def cGrid : List ℚ := [1/10, 1, 100]

/-- The notebook's `param_grid`, enumerated as the cartesian product of the
candidate lists, k-major as the mapping lists the k entry first. -/
def param_grid : List (ℕ × ℚ) :=
  kGrid.flatMap (fun k => cGrid.map (fun c => (k, c)))

/-- Modelled from the spec: `GridSearchCV` (sklearn, not part of the source).
Given a fitting procedure for one composed pipeline and a scoring policy
(the split strategy is a caller-supplied collaborator, out of scope), it
enumerates the candidate combinations, fits one composed pipeline per
combination, and retains the first combination attaining the best score
(ties broken by first-seen order).  An empty candidate mapping fails with
`EmptyGridError`.  Returns the list of fitted pipelines together with the
best one. -/
def GridSearchCV {β : Type} (fitOne : ℕ × ℚ → β) (score : β → ℚ)
    (grid : List (ℕ × ℚ)) : Except EstErr (List β × β) :=
  match grid with
  | [] => .error .EmptyGridError
  | g :: gs =>
      let b := fitOne g
      let bs := gs.map fitOne
      let m := (bs.map score).foldl max (score b)
      .ok (b :: bs, ((b :: bs).find? (fun x => decide (score x = m))).getD b)

/-! ## Inversion lemmas for the validators -/

theorem check_array_ok_inv {X X' : List (List ℚ)}
    (h : check_array X = .ok X') :
    X' = X ∧ isRectangular X = true ∧ X.length ≠ 0 ∧ ncols X ≠ 0 := by
  unfold check_array at h
  by_cases h1 : isRectangular X = true
  · by_cases h2 : X.length = 0
    · simp [h1, h2] at h
    · by_cases h3 : ncols X = 0
      · simp [h1, h2, h3] at h
      · simp [h1, h2, h3] at h
        exact ⟨h.symm, h1, h2, h3⟩
  · simp [h1] at h

theorem check_array_eq_ok {X : List (List ℚ)}
    (h1 : isRectangular X = true) (h2 : X.length ≠ 0) (h3 : ncols X ≠ 0) :
    check_array X = .ok X := by
  unfold check_array
  simp [h1, h2, h3]

theorem check_X_y_ok_inv {X : List (List ℚ)} {y : List ℚ}
    {p : List (List ℚ) × List ℚ} (h : check_X_y X y = .ok p) :
    p = (X, y) ∧ X.length = y.length ∧ check_array X = .ok X := by
  unfold check_X_y at h
  by_cases hl : X.length = y.length
  · simp only [hl, ne_eq, not_true_eq_false, if_false] at h
    cases hX : check_array X with
    | error e => rw [hX] at h; exact Except.noConfusion h
    | ok X' =>
        rw [hX] at h
        injection h with h
        obtain ⟨hXX, _, _, _⟩ := check_array_ok_inv hX
        subst hXX
        exact ⟨h.symm, hl, rfl⟩
  · simp [hl] at h

/-! ## Behaviour of fit -/

theorem fit_ok_inv {m m' : MyClassifier} {X : List (List ℚ)} {y fp : List ℚ}
    (h : m.fit X y fp = .ok m') :
    check_X_y X y = .ok (X, y) ∧
      m' = { C := m.C,
             fitted := some ⟨SVC.fit m.C X y fp,
                             (SVC.fit m.C X y fp).classes_⟩ } := by
  unfold MyClassifier.fit at h
  cases hc : check_X_y X y with
  | error e => rw [hc] at h; exact Except.noConfusion h
  | ok p =>
      obtain ⟨hp, -, -⟩ := check_X_y_ok_inv hc
      rw [hc, hp] at h
      injection h with h
      exact ⟨by rw [hp], h.symm⟩

theorem fit_eq_ok {m : MyClassifier} {X : List (List ℚ)} {y fp : List ℚ}
    (h : check_X_y X y = .ok (X, y)) :
    m.fit X y fp = .ok { C := m.C,
                         fitted := some ⟨SVC.fit m.C X y fp,
                                         (SVC.fit m.C X y fp).classes_⟩ } := by
  unfold MyClassifier.fit
  rw [h]

/-! ## The canonical classes record -/

theorem mem_uniqueSorted (a : ℚ) (l : List ℚ) :
    a ∈ uniqueSorted l ↔ a ∈ l := by
  unfold uniqueSorted
  rw [(List.perm_insertionSort _ _).mem_iff, List.mem_dedup]

theorem nodup_uniqueSorted (l : List ℚ) : (uniqueSorted l).Nodup :=
  (List.perm_insertionSort _ _).symm.nodup (List.nodup_dedup l)

theorem sorted_uniqueSorted (l : List ℚ) :
    List.Sorted (· ≤ ·) (uniqueSorted l) :=
  List.sorted_insertionSort _ _

theorem rows_length_eq_ncols {X : List (List ℚ)}
    (h : isRectangular X = true) : ∀ r ∈ X, r.length = ncols X := by
  cases X with
  | nil => intro r hr; cases hr
  | cons a rs =>
      intro r hr
      cases hr with
      | head => rfl
      | tail _ hr =>
          have ha : ∀ s ∈ rs, (s.length == a.length) = true :=
            List.all_eq_true.mp (by simpa [isRectangular] using h)
          have := ha r hr
          simpa [ncols] using this

/-! ## Claim theorems -/

/-- C1: for every constructor parameter and every input feature container,
calling `predict` on a freshly constructed `MyClassifier` on which `fit` has
never been called fails with `NotFittedError`: the fitted-state guard
(`check_is_fitted`) fires because the fitted attributes are absent. -/
theorem predict_before_fit_raises_not_fitted (C : ℚ) (X : List (List ℚ)) :
    (MyClassifier.init C).predict X = .error .NotFittedError := rfl

/-- C2: for every (features, labels) input accepted by validation, `fit`
succeeds and returns the instance itself — the constructor parameter `C`
unchanged — now carrying the fitted attributes `estimator_` and `classes_`,
where `classes_` is the canonical record of the distinct label classes seen
in the training labels: duplicate-free, sorted, and with exactly the label
values occurring in `y`. -/
theorem fit_returns_self_with_classes (m : MyClassifier)
    (X : List (List ℚ)) (y fp : List ℚ) (p : List (List ℚ) × List ℚ)
    (h : check_X_y X y = .ok p) :
    m.fit X y fp = .ok { C := m.C,
                         fitted := some ⟨SVC.fit m.C X y fp, uniqueSorted y⟩ } ∧
      (uniqueSorted y).Nodup ∧
      List.Sorted (· ≤ ·) (uniqueSorted y) ∧
      (uniqueSorted y).toFinset = y.toFinset := by
  obtain ⟨hp, -, -⟩ := check_X_y_ok_inv h
  subst hp
  refine ⟨fit_eq_ok h, nodup_uniqueSorted y, sorted_uniqueSorted y, ?_⟩
  ext a
  simp [List.mem_toFinset, mem_uniqueSorted]

/-- Witness for C2 at a concrete accepted input. -/
theorem fit_returns_self_with_classes_witness :
    check_X_y [[(1:ℚ)]] [0] = .ok ([[1]], [0]) ∧
      ((MyClassifier.init 1).fit [[(1:ℚ)]] [0] [] = .ok
          { C := 1, fitted := some ⟨SVC.fit 1 [[1]] [0] [], uniqueSorted [0]⟩ } ∧
        (uniqueSorted [0]).Nodup ∧
        List.Sorted (· ≤ ·) (uniqueSorted (0 :: ([] : List ℚ))) ∧
        (uniqueSorted [0]).toFinset = ([0] : List ℚ).toFinset) :=
  ⟨rfl, fit_returns_self_with_classes (MyClassifier.init 1) [[(1:ℚ)]] [0] []
    ([[1]], [0]) rfl⟩

/-- C6: `fit` never touches a constructor parameter: after any successful
fit, the parameter `C` readable on the resulting instance equals the value
it had at construction; only the fitted attributes are written. -/
theorem fit_leaves_params_unchanged (m m' : MyClassifier)
    (X : List (List ℚ)) (y fp : List ℚ) (h : m.fit X y fp = .ok m') :
    m'.C = m.C := by
  obtain ⟨-, h2⟩ := fit_ok_inv h
  rw [h2]

/-- Witness for C6 at a concrete input with C = 5. -/
theorem fit_leaves_params_unchanged_witness :
    ((MyClassifier.init 5).fit [[(1:ℚ)]] [0] [] = .ok
        { C := 5, fitted := some ⟨SVC.fit 5 [[1]] [0] [],
                                  (SVC.fit 5 [[1]] [0] []).classes_⟩ }) ∧
      ({ C := 5, fitted := some ⟨SVC.fit 5 [[1]] [0] [],
                                 (SVC.fit 5 [[1]] [0] []).classes_⟩ }
          : MyClassifier).C = (MyClassifier.init 5).C :=
  ⟨rfl, fit_leaves_params_unchanged (MyClassifier.init 5) _ [[(1:ℚ)]] [0] [] rfl⟩

/-- C10: the per-call fit params are forwarded verbatim to the wrapped
classifier's fit and are not stored on the estimator itself: after a
successful fit the estimator's public attributes are exactly the unchanged
parameter `C` and the fitted attributes, and the fit params appear only
inside the wrapped classifier's fitted state, where they are recorded
verbatim. -/
theorem fit_params_forwarded_not_stored (m m' : MyClassifier)
    (X : List (List ℚ)) (y fp : List ℚ) (h : m.fit X y fp = .ok m') :
    m'.C = m.C ∧
      m'.fitted = some ⟨SVC.fit m.C X y fp, (SVC.fit m.C X y fp).classes_⟩ ∧
      (SVC.fit m.C X y fp).fitParams = fp := by
  obtain ⟨-, h2⟩ := fit_ok_inv h
  subst h2
  exact ⟨rfl, rfl, rfl⟩

/-- Witness for C10 at a concrete input with fit params [7]. -/
theorem fit_params_forwarded_not_stored_witness :
    ((MyClassifier.init 1).fit [[(1:ℚ)]] [0] [7] = .ok
        { C := 1, fitted := some ⟨SVC.fit 1 [[1]] [0] [7],
                                  (SVC.fit 1 [[1]] [0] [7]).classes_⟩ }) ∧
      (({ C := 1, fitted := some ⟨SVC.fit 1 [[1]] [0] [7],
                                  (SVC.fit 1 [[1]] [0] [7]).classes_⟩ }
            : MyClassifier).C = (MyClassifier.init 1).C ∧
        ({ C := 1, fitted := some ⟨SVC.fit 1 [[1]] [0] [7],
                                   (SVC.fit 1 [[1]] [0] [7]).classes_⟩ }
            : MyClassifier).fitted
          = some ⟨SVC.fit (MyClassifier.init 1).C [[1]] [0] [7],
                  (SVC.fit (MyClassifier.init 1).C [[1]] [0] [7]).classes_⟩ ∧
        (SVC.fit (MyClassifier.init 1).C [[1]] [0] [7]).fitParams = [7]) :=
  ⟨rfl, fit_params_forwarded_not_stored (MyClassifier.init 1) _ [[(1:ℚ)]] [0] [7]
    rfl⟩

/-! ## Behaviour of predict on a fitted instance -/

theorem predict_fitted_ok (CC : ℚ) (f : MyFitted) (X : List (List ℚ))
    (hX : check_array X = .ok X)
    (hall : ∀ r ∈ X, r.length = f.estimator_.nFeatures) :
    ({ C := CC, fitted := some f } : MyClassifier).predict X
      = .ok (X.map (SVC.predictRow f.estimator_)) := by
  show (match check_array X with
        | Except.error e => Except.error e
        | Except.ok X' => f.estimator_.predict X') = _
  rw [hX]
  show (if ∀ r ∈ X, r.length = f.estimator_.nFeatures
        then Except.ok (List.map (SVC.predictRow f.estimator_) X)
        else Except.error EstErr.FeatureShapeMismatchError) = _
  rw [if_pos hall]

theorem predict_fitted_dim_mismatch (CC : ℚ) (f : MyFitted)
    (Z : List (List ℚ)) (hZ : check_array Z = .ok Z)
    (hne : ncols Z ≠ f.estimator_.nFeatures) :
    ({ C := CC, fitted := some f } : MyClassifier).predict Z
      = .error .FeatureShapeMismatchError := by
  obtain ⟨-, hrect, hlen, -⟩ := check_array_ok_inv hZ
  show (match check_array Z with
        | Except.error e => Except.error e
        | Except.ok X' => f.estimator_.predict X') = _
  rw [hZ]
  show (if ∀ r ∈ Z, r.length = f.estimator_.nFeatures
        then Except.ok (List.map (SVC.predictRow f.estimator_) Z)
        else Except.error EstErr.FeatureShapeMismatchError) = _
  rw [if_neg]
  intro hall
  cases Z with
  | nil => exact hlen rfl
  | cons r rs =>
      exact hne ((rows_length_eq_ncols hrect r (List.mem_cons_self r rs)).symm.trans
        (hall r (List.mem_cons_self r rs)))

/-- C3: for every (features, labels) pair accepted by validation (equal
sample counts), `fit` followed by `predict` on the same features succeeds
and returns one predicted label per sample: the output length equals the
number of samples in the features. -/
theorem fit_then_predict_length (m m' : MyClassifier) (X : List (List ℚ))
    (y fp : List ℚ) (h : m.fit X y fp = .ok m') :
    m'.predict X = .ok (X.map (SVC.predictRow (SVC.fit m.C X y fp))) ∧
      (X.map (SVC.predictRow (SVC.fit m.C X y fp))).length = X.length := by
  obtain ⟨hv, h2⟩ := fit_ok_inv h
  obtain ⟨-, -, hX⟩ := check_X_y_ok_inv hv
  subst h2
  refine ⟨?_, by simp⟩
  refine predict_fitted_ok m.C _ X hX ?_
  intro r hr
  exact rows_length_eq_ncols (check_array_ok_inv hX).2.1 r hr

/-- Witness for C3: two samples in, two predictions out. -/
theorem fit_then_predict_length_witness :
    ((MyClassifier.init 1).fit [[(1:ℚ)],[2]] [0,1] [] = .ok
        { C := 1, fitted := some ⟨SVC.fit 1 [[1],[2]] [0,1] [],
                                  (SVC.fit 1 [[1],[2]] [0,1] []).classes_⟩ }) ∧
      (({ C := 1, fitted := some ⟨SVC.fit 1 [[1],[2]] [0,1] [],
                                  (SVC.fit 1 [[1],[2]] [0,1] []).classes_⟩ }
            : MyClassifier).predict [[1],[2]]
          = .ok ([[(1:ℚ)],[2]].map
              (SVC.predictRow (SVC.fit (MyClassifier.init 1).C [[1],[2]] [0,1] []))) ∧
        ([[(1:ℚ)],[2]].map
            (SVC.predictRow (SVC.fit (MyClassifier.init 1).C [[1],[2]] [0,1] []))).length
          = [[(1:ℚ)],[2]].length) :=
  ⟨rfl, fit_then_predict_length (MyClassifier.init 1) _ [[(1:ℚ)],[2]] [0,1] [] rfl⟩

/-- C4: whenever the feature and label sample counts differ, `fit` fails
with `ShapeMismatchError`, regardless of whether each input would be valid
on its own: the joint validator checks sample-count consistency first. -/
theorem fit_sample_count_mismatch (m : MyClassifier) (X : List (List ℚ))
    (y fp : List ℚ) (h : X.length ≠ y.length) :
    m.fit X y fp = .error .ShapeMismatchError := by
  unfold MyClassifier.fit check_X_y
  rw [if_pos h]

/-- Witness for C4: two samples against one label. -/
theorem fit_sample_count_mismatch_witness :
    ([[(1:ℚ)],[2]].length ≠ ([0] : List ℚ).length) ∧
      (MyClassifier.init 1).fit [[(1:ℚ)],[2]] [0] [] = .error .ShapeMismatchError :=
  ⟨by decide,
   fit_sample_count_mismatch (MyClassifier.init 1) [[(1:ℚ)],[2]] [0] [] (by decide)⟩

/-- C5: on any fitted estimator, `predict` validates that the input features
have the same feature dimensionality as the features seen at fit time, and
fails with `FeatureShapeMismatchError` whenever the dimensionality differs
(for any input that passes the per-array checks). -/
theorem predict_validates_fit_dimensionality (m m' : MyClassifier)
    (X Z : List (List ℚ)) (y fp : List ℚ)
    (hfit : m.fit X y fp = .ok m')
    (hZ : check_array Z = .ok Z)
    (hne : ncols Z ≠ ncols X) :
    m'.predict Z = .error .FeatureShapeMismatchError := by
  obtain ⟨-, h2⟩ := fit_ok_inv hfit
  subst h2
  exact predict_fitted_dim_mismatch m.C _ Z hZ hne

/-- Witness for C5: fit on one feature column, predict on two. -/
theorem predict_validates_fit_dimensionality_witness :
    ((MyClassifier.init 1).fit [[(1:ℚ)]] [0] [] = .ok
        { C := 1, fitted := some ⟨SVC.fit 1 [[1]] [0] [],
                                  (SVC.fit 1 [[1]] [0] []).classes_⟩ }) ∧
      check_array [[(1:ℚ), 2]] = .ok [[1, 2]] ∧
      ncols [[(1:ℚ), 2]] ≠ ncols [[(1:ℚ)]] ∧
      ({ C := 1, fitted := some ⟨SVC.fit 1 [[1]] [0] [],
                                 (SVC.fit 1 [[1]] [0] []).classes_⟩ }
          : MyClassifier).predict [[1, 2]] = .error .FeatureShapeMismatchError :=
  ⟨rfl, rfl, by decide,
   predict_validates_fit_dimensionality (MyClassifier.init 1) _
     [[(1:ℚ)]] [[(1:ℚ), 2]] [0] [] rfl rfl (by decide)⟩

/-- C7: `MyClassifier` carries the default tag set, which marks it
deterministic (`non_deterministic` is false); a successful fit is fully
reproducible: refitting the fitted instance with identical arguments yields
the identical instance (hence identical predictions), and any instance with
the same parameter — whatever fitted attributes it already carries — fits to
the very same result, so every fit recomputes the fitted attributes from
scratch with no incremental accumulation. -/
theorem deterministic_refit_overwrites (m m' n : MyClassifier)
    (X : List (List ℚ)) (y fp : List ℚ)
    (h : m.fit X y fp = .ok m') (hn : n.C = m.C) :
    MyClassifier.tags.non_deterministic = false ∧
      m'.fit X y fp = .ok m' ∧
      n.fit X y fp = .ok m' := by
  obtain ⟨hv, h2⟩ := fit_ok_inv h
  have hgen : ∀ k : MyClassifier, k.C = m.C → k.fit X y fp = .ok m' := by
    intro k hk
    have hfk := @fit_eq_ok k X y fp hv
    rw [hfk, hk, h2]
  exact ⟨rfl, hgen m' (by rw [h2]), hgen n hn⟩

/-- Witness for C7: refitting an instance already fitted on different junk
data, with the same parameter, overwrites its fitted attributes with the
same result as the first fit. -/
theorem deterministic_refit_overwrites_witness :
    ((MyClassifier.init 1).fit [[(1:ℚ)]] [0] [] = .ok
        { C := 1, fitted := some ⟨SVC.fit 1 [[1]] [0] [],
                                  (SVC.fit 1 [[1]] [0] []).classes_⟩ }) ∧
      ({ C := 1, fitted := some ⟨SVC.fit 1 [[(5:ℚ)],[6]] [2,3] [4], [9]⟩ }
          : MyClassifier).C = (MyClassifier.init 1).C ∧
      (MyClassifier.tags.non_deterministic = false ∧
        ({ C := 1, fitted := some ⟨SVC.fit 1 [[1]] [0] [],
                                   (SVC.fit 1 [[1]] [0] []).classes_⟩ }
            : MyClassifier).fit [[(1:ℚ)]] [0] [] = .ok
          { C := 1, fitted := some ⟨SVC.fit 1 [[1]] [0] [],
                                    (SVC.fit 1 [[1]] [0] []).classes_⟩ } ∧
        ({ C := 1, fitted := some ⟨SVC.fit 1 [[(5:ℚ)],[6]] [2,3] [4], [9]⟩ }
            : MyClassifier).fit [[(1:ℚ)]] [0] [] = .ok
          { C := 1, fitted := some ⟨SVC.fit 1 [[1]] [0] [],
                                    (SVC.fit 1 [[1]] [0] []).classes_⟩ }) :=
  ⟨rfl, rfl,
   deterministic_refit_overwrites (MyClassifier.init 1) _
     { C := 1, fitted := some ⟨SVC.fit 1 [[(5:ℚ)],[6]] [2,3] [4], [9]⟩ }
     [[(1:ℚ)]] [0] [] rfl rfl⟩

/-- C8: the diagnostic trace is purely observational: for every input, the
value returned by fit/predict (and hence every fitted attribute) is
identical under any two caller-configured logging levels, and identical to
the unlogged semantics; only the emitted records may differ. -/
theorem logging_level_is_observational (l1 l2 : ℕ) (m : MyClassifier)
    (X : List (List ℚ)) (y fp : List ℚ) :
    (MyClassifier.fitLogged l1 m X y fp).1 = m.fit X y fp ∧
      (MyClassifier.fitLogged l1 m X y fp).1 = (MyClassifier.fitLogged l2 m X y fp).1 ∧
      (MyClassifier.predictLogged l1 m X).1 = m.predict X ∧
      (MyClassifier.predictLogged l1 m X).1 = (MyClassifier.predictLogged l2 m X).1 := by
  refine ⟨?_, ?_, ?_, ?_⟩
  · unfold MyClassifier.fitLogged MyClassifier.fit
    cases check_X_y X y with
    | error e => rfl
    | ok p => cases p; rfl
  · unfold MyClassifier.fitLogged
    cases check_X_y X y with
    | error e => rfl
    | ok p => cases p; rfl
  · unfold MyClassifier.predictLogged MyClassifier.predict
    cases check_is_fitted m with
    | error e => rfl
    | ok f => cases check_array X <;> rfl
  · unfold MyClassifier.predictLogged
    cases check_is_fitted m with
    | error e => rfl
    | ok f => cases check_array X <;> rfl

/-! ## Selection of the best-scoring combination -/

theorem le_foldl_max (l : List ℚ) (a : ℚ) : a ≤ l.foldl max a := by
  induction l generalizing a with
  | nil => exact le_refl a
  | cons x xs ih => exact le_trans (le_max_left a x) (ih (max a x))

theorem mem_le_foldl_max (l : List ℚ) (a : ℚ) :
    ∀ b ∈ l, b ≤ l.foldl max a := by
  induction l generalizing a with
  | nil => intro b hb; cases hb
  | cons x xs ih =>
      intro b hb
      cases hb with
      | head => exact le_trans (le_max_right a x) (le_foldl_max xs (max a x))
      | tail _ hb => exact ih (max a x) b hb

theorem foldl_max_attained (l : List ℚ) (a : ℚ) :
    l.foldl max a = a ∨ l.foldl max a ∈ l := by
  induction l generalizing a with
  | nil => exact Or.inl rfl
  | cons x xs ih =>
      rcases ih (max a x) with h | h
      · rcases max_choice a x with hm | hm
        · exact Or.inl (by rw [List.foldl_cons, h, hm])
        · exact Or.inr (by rw [List.foldl_cons, h, hm]; exact List.mem_cons_self x xs)
      · exact Or.inr (List.mem_cons_of_mem x h)

theorem find?_eq_some_split {α : Type} (p : α → Bool) (b : α) (l : List α)
    (h : l.find? p = some b) :
    p b = true ∧ ∃ l₁ l₂, l = l₁ ++ b :: l₂ ∧ ∀ x ∈ l₁, p x = false := by
  induction l with
  | nil => exact absurd h (by simp)
  | cons x xs ih =>
      by_cases hx : p x = true
      · rw [List.find?_cons_of_pos _ hx] at h
        injection h with h
        subst h
        exact ⟨hx, [], xs, rfl, by intro z hz; cases hz⟩
      · have hx' : ¬ (p x : Prop) := hx
        rw [List.find?_cons_of_neg _ hx'] at h
        obtain ⟨hpb, l₁, l₂, hl, hall⟩ := ih h
        refine ⟨hpb, x :: l₁, l₂, by rw [hl]; rfl, ?_⟩
        intro z hz
        cases hz with
        | head => exact Bool.eq_false_iff.mpr hx
        | tail _ hz => exact hall z hz

theorem find?_isSome_of_mem {α : Type} (p : α → Bool) (b : α) (l : List α)
    (hb : b ∈ l) (hpb : p b = true) : ∃ c, l.find? p = some c := by
  induction l with
  | nil => cases hb
  | cons x xs ih =>
      by_cases hx : p x = true
      · exact ⟨x, List.find?_cons_of_pos _ hx⟩
      · cases hb with
        | head => exact absurd hpb hx
        | tail _ hb' =>
            obtain ⟨c, hc⟩ := ih hb'
            exact ⟨c, by rw [List.find?_cons_of_neg _ hx, hc]⟩

theorem GridSearchCV_ok {β : Type} (fitOne : ℕ × ℚ → β) (score : β → ℚ)
    (grid : List (ℕ × ℚ)) (hne : grid ≠ []) :
    ∃ best, GridSearchCV fitOne score grid = .ok (grid.map fitOne, best) ∧
      best ∈ grid.map fitOne ∧
      (∀ x ∈ grid.map fitOne, score x ≤ score best) ∧
      ∃ l₁ l₂, grid.map fitOne = l₁ ++ best :: l₂ ∧
        ∀ x ∈ l₁, score x < score best := by
  cases grid with
  | nil => exact absurd rfl hne
  | cons g gs =>
      set b := fitOne g with hb
      set bs := gs.map fitOne with hbs
      set msc := (bs.map score).foldl max (score b) with hmsc
      have hatt : ∃ c ∈ b :: bs, score c = msc := by
        rcases foldl_max_attained (bs.map score) (score b) with h | h
        · exact ⟨b, List.mem_cons_self _ _, h.symm⟩
        · obtain ⟨c, hc, hcs⟩ := List.mem_map.mp h
          exact ⟨c, List.mem_cons_of_mem _ hc, hcs⟩
      obtain ⟨c, hcmem, hcs⟩ := hatt
      obtain ⟨best, hfind⟩ := find?_isSome_of_mem
        (fun x => decide (score x = msc)) c (b :: bs) hcmem (by simp [hcs])
      obtain ⟨hpb, l₁, l₂, hsplit, hall⟩ := find?_eq_some_split _ _ _ hfind
      have hbest_sc : score best = msc := of_decide_eq_true hpb
      have hmax : ∀ x ∈ b :: bs, score x ≤ msc := by
        intro x hx
        cases hx with
        | head => exact le_foldl_max _ _
        | tail _ hx =>
            exact mem_le_foldl_max _ _ _ (List.mem_map_of_mem score hx)
      refine ⟨best, ?_, ?_, ?_, l₁, l₂, hsplit, ?_⟩
      · show Except.ok (b :: bs,
            ((b :: bs).find? (fun x => decide (score x = msc))).getD b)
          = Except.ok (b :: bs, best)
        rw [hfind]
        rfl
      · exact List.mem_of_find?_eq_some hfind
      · intro x hx
        rw [hbest_sc]
        exact hmax x hx
      · intro x hx
        have hle := hmax x (by rw [hsplit]; exact List.mem_append_left _ hx)
        have hne2 : score x ≠ msc := by simpa using hall x hx
        rw [hbest_sc]
        exact lt_of_le_of_ne hle hne2

/-- C9: grid search over the notebook's candidate mapping — selector k in
[1, 2, 5, 10, 20] and classifier C in [0.1, 1, 100] — enumerates exactly 15
parameter combinations (the cartesian product), fits one composed pipeline
per combination, and returns the single best-scoring fitted pipeline, ties
broken by first-seen order in the enumeration: every pipeline listed before
the returned one scores strictly below it, and none scores above it. -/
theorem grid_search_fifteen_combinations (β : Type) (fitOne : ℕ × ℚ → β)
    (score : β → ℚ) :
    param_grid.length = 15 ∧ (param_grid.map fitOne).length = 15 ∧
      ∃ best, GridSearchCV fitOne score param_grid
          = .ok (param_grid.map fitOne, best) ∧
        best ∈ param_grid.map fitOne ∧
        (∀ x ∈ param_grid.map fitOne, score x ≤ score best) ∧
        ∃ l₁ l₂, param_grid.map fitOne = l₁ ++ best :: l₂ ∧
          ∀ x ∈ l₁, score x < score best := by
  refine ⟨rfl, ?_, GridSearchCV_ok fitOne score param_grid (by decide)⟩
  rw [List.length_map]
  exact rfl
